import Mathlib

/-!
Verification development for the bilingual-subtitle-generator web application.

The TypeScript sources are shallowly embedded into Lean:

* numbers that the application handles as JavaScript floating-point values
  (playback times, parsed timestamps) are modelled as exact rationals `ℚ`;
  every concrete value occurring in the specification (`3723.5`, `0.5`, ...)
  is exactly representable, so no claim under study depends on rounding;
* JavaScript strings are Lean `String`s; the JavaScript helpers
  `String.prototype.split`, `Number`, `parseInt` are embedded as executable
  functions over `List Char` (`splitOnChar`, `jsNumberL`, `jsParseIntL`);
  `Number` and `parseInt` return `NaN` on non-numeric input in JavaScript,
  which a rational cannot represent: the embeddings return `0` there, and
  every theorem below restricts itself to numeric components, where the
  embedding agrees with JavaScript exactly;
* the asynchronous generation workflow (`services/geminiService.ts`) is
  embedded as a pure function of the provider's responses: the upload
  response, the list of successive status-poll responses, and the
  generation response; its observable effects (number of fixed-interval
  waits, whether the generation request was issued, the outcome) are
  returned in a `RunResult` record;
* the React component state of `App.tsx` is embedded as an `AppState`
  record together with one transition function per event handler, and DOM
  side effects (`alert`, object-URL management, the remote call) are
  returned as an explicit effect list.
-/

/-! ## Data model (`src/types.ts`) -/

/-- One caption record, exactly the four string fields of `SubtitleItem`
in `src/types.ts`. -/
structure SubtitleItem where
  startTime : String
  endTime : String
  originalText : String
  translatedText : String
deriving DecidableEq, Repr, Inhabited

/-- The six status tags of `ProcessingState.status` in `src/types.ts`:
`idle | reading | uploading | processing | completed | error`. -/
inductive Status where
  | idle
  | reading
  | uploading
  | processing
  | completed
  | error
deriving DecidableEq, Repr, Inhabited

/-- `ProcessingState` of `src/types.ts`: a status tag plus an optional
human-readable message. -/
structure ProcessingState where
  status : Status
  message : Option String := none
deriving DecidableEq, Repr, Inhabited

/-! ## JavaScript string primitives

The timestamp parser uses `split`, `Number` and `parseInt`.  They are
embedded over `List Char`. -/

/-- JavaScript `string.split(sep)` for a one-character separator, on the
character list of the string: `"a,b".split(",") = ["a","b"]`,
`"".split(",") = [""]`, `"a,".split(",") = ["a",""]`. -/
def splitOnChar (sep : Char) : List Char → List (List Char)
  | [] => [[]]
  | c :: cs =>
    if c = sep then
      [] :: splitOnChar sep cs
    else
      match splitOnChar sep cs with
      | [] => [[c]]
      | p :: ps => (c :: p) :: ps

/-- Decimal value of a digit list, most significant first:
`digitsToNat ['0','4','2'] = 42`. -/
def digitsToNat (l : List Char) : ℕ :=
  l.foldl (fun n c => n * 10 + (c.toNat - '0'.toNat)) 0

/-- JavaScript `Number(s)` on the inputs the application feeds it:
a string of decimal digits yields its value and the empty string yields
`0`, as in JavaScript.  (On other strings JavaScript yields `NaN`; the
embedding returns `0` there, and no theorem below depends on that case.) -/
def jsNumberL (l : List Char) : ℚ :=
  if l.all Char.isDigit then (digitsToNat l : ℚ) else 0

/-- JavaScript `parseInt(s)` on the inputs the application feeds it: the
value of the longest digit prefix.  (JavaScript yields `NaN` when there is
no digit prefix; the embedding returns `0` there, and the caller always
passes a non-empty digit string.) -/
def jsParseIntL (l : List Char) : ℚ :=
  (digitsToNat (l.takeWhile Char.isDigit) : ℚ)

/-! ## Time codec

`src/components/VideoPlayer.tsx` and `src/components/SubtitleList.tsx`
each define a module-local helper `parseTime`, with character-identical
bodies:

    const [hms, ms] = timeStr.split(',');
    const [h, m, s] = hms.split(':').map(Number);
    return h * 3600 + m * 60 + s + (parseInt(ms || '0') / 1000);

Both are embedded, one per namespace, so that their agreement can be
stated.  A destructuring of a too-short array yields `undefined` in
JavaScript (and then `NaN` arithmetic); the embedding uses `getD` with
default `0` components there, and every theorem below restricts itself to
well-formed `HH:MM:SS,mmm` inputs where the two agree. -/

namespace VideoPlayer

/-- `parseTime` of `src/components/VideoPlayer.tsx`: parse `"HH:MM:SS,mmm"`
to seconds. -/
def parseTime (timeStr : String) : ℚ :=
  let parts := splitOnChar ',' timeStr.toList
  let hms := parts.headD []
  let msRaw := parts.getD 1 []
  let nums := (splitOnChar ':' hms).map jsNumberL
  let h := nums.getD 0 0
  let m := nums.getD 1 0
  let s := nums.getD 2 0
  let msArg := if msRaw.isEmpty then ['0'] else msRaw
  h * 3600 + m * 60 + s + jsParseIntL msArg / 1000

/-- The body of the `subtitles.find(...)` predicate in the active-subtitle
effect of `VideoPlayer`: `currentTime >= start && currentTime <= end`. -/
def isActiveB (currentTime : ℚ) (sub : SubtitleItem) : Bool :=
  decide (currentTime ≥ parseTime sub.startTime) &&
    decide (currentTime ≤ parseTime sub.endTime)

/-- The active-caption selector of `VideoPlayer`:
`subtitles.find(sub => currentTime >= start && currentTime <= end)`,
yielding the first match in list order or none. -/
def findActiveSubtitle (subtitles : List SubtitleItem) (currentTime : ℚ) :
    Option SubtitleItem :=
  subtitles.find? (isActiveB currentTime)

/-- The seek guard in `VideoPlayer`: an externally requested time is pushed
into the player exactly when
`Math.abs(videoRef.current.currentTime - currentTime) > 0.5`. -/
def shouldSeek (playerTime requested : ℚ) : Bool :=
  decide (|playerTime - requested| > 0.5)

end VideoPlayer

namespace SubtitleList

/-- `parseTime` of `src/components/SubtitleList.tsx`, character-identical
in source to the one in `VideoPlayer.tsx`. -/
def parseTime (timeStr : String) : ℚ :=
  let parts := splitOnChar ',' timeStr.toList
  let hms := parts.headD []
  let msRaw := parts.getD 1 []
  let nums := (splitOnChar ':' hms).map jsNumberL
  let h := nums.getD 0 0
  let m := nums.getD 1 0
  let s := nums.getD 2 0
  let msArg := if msRaw.isEmpty then ['0'] else msRaw
  h * 3600 + m * 60 + s + jsParseIntL msArg / 1000

end SubtitleList

/-! ## Export (`downloadSRT` in `src/App.tsx`)

    const srtContent = subtitles.map((sub, index) => {
      return `${index + 1}\n${sub.startTime} --> ${sub.endTime}\n${sub.translatedText}\n${sub.originalText}\n`;
    }).join('\n');
-/

/-- The per-caption blocks of `downloadSRT`, produced by
`subtitles.map((sub, index) => ...)`; the first argument carries the index
of the head caption. -/
def srtBlocks : ℕ → List SubtitleItem → List String
  | _, [] => []
  | i, sub :: rest =>
    (toString (i + 1) ++ "\n" ++ sub.startTime ++ " --> " ++ sub.endTime ++
        "\n" ++ sub.translatedText ++ "\n" ++ sub.originalText ++ "\n") ::
      srtBlocks (i + 1) rest

/-- `srtContent` of `downloadSRT` in `src/App.tsx`: the blocks joined with
`'\n'` (each block already ends in `'\n'`, so consecutive blocks are
separated by a blank line). -/
def srtContent (subtitles : List SubtitleItem) : String :=
  String.intercalate "\n" (srtBlocks 0 subtitles)

/-! ## Generation workflow (`generateBilingualSubtitles` in
`src/services/geminiService.ts`)

The service is asynchronous but strictly sequential; it is embedded as a
pure function of the provider responses it consumes: the upload response,
the successive status-poll responses, and the generation response.  The
run is summarised by a `RunResult`: the outcome, the number of
fixed-interval waits performed by the polling loop, whether the
generation request was issued, and the status messages reported through
the `onStatusUpdate` callback. -/

/-- The file-metadata fields the service reads from a provider response:
`uri`, `name` and `state`.  Each is optional, since the SDK response
envelope is undocumented and any field may be absent. -/
structure ProviderFile where
  uri : Option String := none
  name : Option String := none
  state : Option String := none
deriving DecidableEq, Repr, Inhabited

/-- A provider response as the service sees it: possibly wrapped in a
`file` field, possibly carrying the metadata fields directly. -/
structure UploadResponse where
  file : Option ProviderFile := none
  uri : Option String := none
  name : Option String := none
  state : Option String := none
deriving DecidableEq, Repr, Inhabited

/-- `uploadResult.file ?? uploadResult` (and likewise
`fileStatus.file ?? fileStatus`): unwrap the `file` field when present,
otherwise read the metadata fields off the response itself. -/
def extractFile (r : UploadResponse) : ProviderFile :=
  match r.file with
  | some f => f
  | none => { uri := r.uri, name := r.name, state := r.state }

/-- The guard `!uploadedFile || !uploadedFile.uri`: in JavaScript the
object itself is never falsy after `??`, so the check fails exactly when
`uri` is absent or the empty string (both falsy). -/
def uriMissing (f : ProviderFile) : Bool :=
  match f.uri with
  | none => true
  | some u => u.isEmpty

/-- The fixed wait between status polls, in milliseconds:
`setTimeout(resolve, 2000)`. -/
def pollIntervalMs : ℕ := 2000

/-- Result of the polling loop: the loop left the `"PROCESSING"` state at
a terminal state, observed an explicit `"FAILED"` state on a poll, or ran
out of modelled provider responses while still processing (the source
loop has no iteration bound, so a provider that answers `"PROCESSING"`
forever never terminates; the finite response list models that case as
`exhausted`).  Each variant records how many fixed-interval waits were
performed. -/
inductive PollOutcome where
  | terminal (finalState : Option String) (delays : ℕ)
  | failed (delays : ℕ)
  | exhausted (delays : ℕ)
deriving DecidableEq, Repr

/-- The polling loop of phase 2:

    while (fileState === "PROCESSING") {
      await new Promise((resolve) => setTimeout(resolve, 2000));
      const fileStatus = await ai.files.get({ name: fileName });
      const currentFile = fileStatus.file ?? fileStatus;
      fileState = currentFile.state;
      if (fileState === "FAILED") { throw ... }
    }

`st` is the state last observed, `polls` the remaining status responses,
`d` the number of waits performed so far. -/
def pollLoop (st : Option String) (polls : List UploadResponse) (d : ℕ) :
    PollOutcome :=
  match polls with
  | [] =>
    if st = some "PROCESSING" then .exhausted (d + 1) else .terminal st d
  | r :: rest =>
    if st = some "PROCESSING" then
      let st2 := (extractFile r).state
      if st2 = some "FAILED" then .failed (d + 1)
      else pollLoop st2 rest (d + 1)
    else .terminal st d

/-- The phase-3 response: `response.text` is an optional string. -/
structure GenerateResponse where
  text : Option String := none
deriving DecidableEq, Repr, Inhabited

/-- Outcome of one run of `generateBilingualSubtitles`: the resolved
subtitle list, a thrown error with its message, or a run that never
settles because the provider reports processing forever. -/
inductive WorkflowOutcome where
  | success (subs : List SubtitleItem)
  | failure (msg : String)
  | hung
deriving DecidableEq, Repr

/-- Observable summary of one run of `generateBilingualSubtitles`. -/
structure RunResult where
  outcome : WorkflowOutcome
  delays : ℕ
  generationAttempted : Bool
  messages : List String
deriving DecidableEq, Repr

/-- `generateBilingualSubtitles` of `src/services/geminiService.ts` as a
function of the provider responses.  `parseJson` models `JSON.parse`
followed by the cast to `SubtitleItem[]`: it yields the parsed list or
fails.  The `catch` block of the source only logs and rethrows, so it
does not change the outcome. -/
def generateBilingualSubtitles (upload : UploadResponse)
    (polls : List UploadResponse) (genResp : GenerateResponse)
    (parseJson : String → Option (List SubtitleItem)) : RunResult :=
  let uploadedFile := extractFile upload
  if uriMissing uploadedFile then
    { outcome := .failure "Failed to upload file: URI is missing from response."
      delays := 0
      generationAttempted := false
      messages := ["Uploading video to Gemini..."] }
  else
    match pollLoop uploadedFile.state polls 0 with
    | .failed d =>
      { outcome := .failure "Video processing failed on Gemini servers."
        delays := d
        generationAttempted := false
        messages := ["Uploading video to Gemini...", "Processing video..."] }
    | .exhausted d =>
      { outcome := .hung
        delays := d
        generationAttempted := false
        messages := ["Uploading video to Gemini...", "Processing video..."] }
    | .terminal _ d =>
      let msgs := ["Uploading video to Gemini...", "Processing video...",
        "Generating subtitles..."]
      match genResp.text with
      | none =>
        { outcome := .failure "No content generated."
          delays := d, generationAttempted := true, messages := msgs }
      | some raw =>
        if raw.isEmpty then
          { outcome := .failure "No content generated."
            delays := d, generationAttempted := true, messages := msgs }
        else
          match parseJson raw with
          | some data =>
            { outcome := .success data
              delays := d, generationAttempted := true, messages := msgs }
          | none =>
            { outcome := .failure "Failed to parse generated subtitles."
              delays := d, generationAttempted := true, messages := msgs }

/-! ## Application state machine (`src/App.tsx`)

The React component state is embedded as a record, and each event
handler as a transition function.  DOM side effects are returned as an
explicit effect list. -/

/-- The fields of a browser `File` object that `App.tsx` reads. -/
structure JsFile where
  name : String
  size : ℕ
  type : String
deriving DecidableEq, Repr, Inhabited

/-- The component state of `App`: the selected file, the object URL of
the video, the subtitle list and the processing state.  (The target
language and current time are independent of every claim under study and
are omitted.) -/
structure AppState where
  file : Option JsFile := none
  videoUrl : Option String := none
  subtitles : List SubtitleItem := []
  processingState : ProcessingState := { status := .idle }
deriving DecidableEq, Repr, Inhabited

/-- The initial component state: no file, no URL, no subtitles, status
`idle`. -/
def initialAppState : AppState := {}

/-- DOM side effects performed by the handlers of `App.tsx`. -/
inductive Effect where
  | alert (msg : String)
  | revokeObjectURL (url : String)
  | createObjectURL
  | remoteGenerate
deriving DecidableEq, Repr

/-- `const MAX_FILE_SIZE = 4 * 1024 * 1024 * 1024` (4 GiB, in bytes). -/
def MAX_FILE_SIZE : ℕ := 4 * 1024 * 1024 * 1024

/-- `handleFileChange` of `src/App.tsx` on the selected file (if any).
`newUrl` is the fresh object URL the browser would mint for the accepted
file.  Returns the next state and the effect list. -/
def handleFileChange (st : AppState) (selected : Option JsFile)
    (newUrl : String) : AppState × List Effect :=
  match selected with
  | none => (st, [])
  | some f =>
    if f.size > MAX_FILE_SIZE then
      (st, [.alert "File size exceeds the 4GB limit."])
    else
      let cleanup : List Effect :=
        match st.videoUrl with
        | some u => [.revokeObjectURL u]
        | none => []
      ({ st with
          file := some f
          videoUrl := some newUrl
          subtitles := []
          processingState := { status := .idle } },
        cleanup ++ [.createObjectURL])

/-- JavaScript `pat` occurs at the head of `l`. -/
def patAtHead : List Char → List Char → Bool
  | [], _ => true
  | _ :: _, [] => false
  | p :: ps, c :: cs => p == c && patAtHead ps cs

/-- JavaScript `haystack.includes(pat)` on character lists. -/
def jsIncludesL (pat : List Char) : List Char → Bool
  | [] => patAtHead pat []
  | c :: cs => patAtHead pat (c :: cs) || jsIncludesL pat cs

/-- JavaScript `haystack.includes(pat)` on strings. -/
def jsIncludes (pat haystack : String) : Bool :=
  jsIncludesL pat.toList haystack.toList

/-- The synchronous head of `handleProcess`: bail out when no file is
selected, otherwise enter `uploading` with message `"Starting upload..."`
and issue the remote generation call. -/
def handleProcessStart (st : AppState) : AppState × List Effect :=
  match st.file with
  | none => (st, [])
  | some _ =>
    ({ st with
        processingState :=
          { status := .uploading, message := some "Starting upload..." } },
      [.remoteGenerate])

/-- The status-update callback passed to `generateBilingualSubtitles`:

    let status: ProcessingState['status'] = 'processing';
    if (statusMessage.toLowerCase().includes('upload')) status = 'uploading';
    setProcessingState({ status, message: statusMessage });
-/
def onStatusUpdate (st : AppState) (statusMessage : String) : AppState :=
  let status : Status :=
    if jsIncludes "upload" statusMessage.toLower then .uploading
    else .processing
  { st with
      processingState := { status := status, message := some statusMessage } }

/-- The error message computed by the `catch` block of `handleProcess`;
`emsg` stands for the thrown error rendered as text (the source reads
both `error.message` and `error.toString()`, which agree on the message
content for the errors the service throws). -/
def errorMessageFor (emsg : String) : String :=
  let base1 :=
    if jsIncludes "Project not found" emsg then
      "API Key Invalid or Quota Exceeded."
    else
      "Failed to generate subtitles. Please try again."
  let base2 :=
    if jsIncludes "413" emsg then
      "File is too large for the current API tier or connection."
    else base1
  base2 ++ " (" ++ emsg ++ ")"

/-- The continuation of `handleProcess` once the service call settles:
success stores the subtitles and enters `completed`; a thrown error
enters `error` with the computed message; a run that never settles leaves
the state untouched forever. -/
def handleProcessResult (st : AppState) (r : RunResult) : AppState :=
  match r.outcome with
  | .success subs =>
    { st with
        subtitles := subs
        processingState := { status := .completed } }
  | .failure m =>
    { st with
        processingState :=
          { status := .error, message := some (errorMessageFor m) } }
  | .hung => st

/-- The clear-file button of `App.tsx`: resets file, URL, subtitles and
processing state. -/
def resetFile (st : AppState) : AppState :=
  { st with
      file := none
      videoUrl := none
      subtitles := []
      processingState := { status := .idle } }

/-- The states of `App` reachable from the initial state through the
event handlers: file selection, starting generation, a status-update
callback, settlement of the generation call, and reset. -/
inductive Reachable : AppState → Prop where
  | init : Reachable initialAppState
  | fileChange {s : AppState} (sel : Option JsFile) (url : String) :
      Reachable s → Reachable (handleFileChange s sel url).1
  | processStart {s : AppState} :
      Reachable s → Reachable (handleProcessStart s).1
  | statusUpdate {s : AppState} (msg : String) :
      Reachable s → Reachable (onStatusUpdate s msg)
  | processResult {s : AppState} (r : RunResult) :
      Reachable s → Reachable (handleProcessResult s r)
  | reset {s : AppState} :
      Reachable s → Reachable (resetFile s)

/-! ## Concrete inputs used by the specification's examples -/

/-- The first caption of the active-caption example:
range 1 s to 3 s. -/
def exampleCaptionA : SubtitleItem :=
  { startTime := "00:00:01,000", endTime := "00:00:03,000"
    originalText := "a", translatedText := "b" }

/-- The second caption of the active-caption example:
range 4 s to 6 s. -/
def exampleCaptionB : SubtitleItem :=
  { startTime := "00:00:04,000", endTime := "00:00:06,000"
    originalText := "c", translatedText := "d" }

/-- The caption list of the active-caption example. -/
def exampleCaptions : List SubtitleItem := [exampleCaptionA, exampleCaptionB]

/-- The caption of the export example. -/
def exportExampleCaption : SubtitleItem :=
  { startTime := "00:00:01,000", endTime := "00:00:02,000"
    originalText := "Hi", translatedText := "你好" }

/-- A playback time lies in the inclusive `[start, end]` range of a
caption, both endpoints parsed by the time codec (specification-side
restatement of the selection predicate). -/
def containsTime (sub : SubtitleItem) (t : ℚ) : Prop :=
  VideoPlayer.parseTime sub.startTime ≤ t ∧
    t ≤ VideoPlayer.parseTime sub.endTime

/-- An upload response whose resource is already in the `"FAILED"` state
(wrapped in a `file` field). -/
def failedUploadResponse : UploadResponse :=
  { file := some
      { uri := some "files/abc123", name := some "files/abc123"
        state := some "FAILED" } }

/-- An upload response whose resource is in the `"PROCESSING"` state. -/
def processingUploadResponse : UploadResponse :=
  { file := some
      { uri := some "files/abc123", name := some "files/abc123"
        state := some "PROCESSING" } }

/-- A status-poll response reporting `"PROCESSING"` (unwrapped form). -/
def processingPollResponse : UploadResponse := { state := some "PROCESSING" }

/-- A status-poll response reporting `"ACTIVE"` (unwrapped form). -/
def activePollResponse : UploadResponse := { state := some "ACTIVE" }

/-- A status-poll response reporting `"FAILED"` (unwrapped form). -/
def failedPollResponse : UploadResponse := { state := some "FAILED" }

/-- An upload response carrying a resource name and state but no `uri`,
wrapped in a `file` field. -/
def wrappedNoUriResponse : UploadResponse :=
  { file := some { name := some "files/abc123", state := some "ACTIVE" } }

/-- An upload response carrying a state but no `uri`, not wrapped. -/
def bareNoUriResponse : UploadResponse := { state := some "ACTIVE" }

/-- A generation response with a non-empty text payload. -/
def okGenerateResponse : GenerateResponse := { text := some "[]" }

/-- A `JSON.parse` model that accepts every payload as the empty caption
list. -/
def emptyParse : String → Option (List SubtitleItem) := fun _ => some []

/-- A selected file one byte over the 4 GiB boundary. -/
def oversizedFile : JsFile :=
  { name := "big.mp4", size := 4 * 1024 * 1024 * 1024 + 1
    type := "video/mp4" }

/-! ## Helper lemmas: the JavaScript string layer -/

lemma splitOnChar_sep_cons (sep : Char) (xs ys : List Char) (h : sep ∉ xs) :
    splitOnChar sep (xs ++ sep :: ys) = xs :: splitOnChar sep ys := by
  induction xs with
  | nil => simp [splitOnChar]
  | cons x xs ih =>
    have hx : x ≠ sep := fun he => h (he ▸ List.mem_cons_self x xs)
    have hxs : sep ∉ xs := fun hm => h (List.mem_cons_of_mem _ hm)
    simp only [List.cons_append, splitOnChar, List.append_eq, if_neg hx,
      ih hxs]

lemma splitOnChar_no_sep (sep : Char) (xs : List Char) (h : sep ∉ xs) :
    splitOnChar sep xs = [xs] := by
  induction xs with
  | nil => simp [splitOnChar]
  | cons x xs ih =>
    have hx : x ≠ sep := fun he => h (he ▸ List.mem_cons_self x xs)
    have hxs : sep ∉ xs := fun hm => h (List.mem_cons_of_mem _ hm)
    simp only [splitOnChar, if_neg hx, ih hxs]

lemma takeWhile_eq_self_of_all (p : Char → Bool) (l : List Char)
    (h : l.all p = true) : l.takeWhile p = l := by
  induction l with
  | nil => rfl
  | cons x xs ih =>
    simp only [List.all_cons, Bool.and_eq_true] at h
    simp [List.takeWhile_cons, h.1, ih h.2]

lemma not_mem_of_all_isDigit (l : List Char) (h : l.all Char.isDigit = true)
    (c : Char) (hc : c.isDigit = false) : c ∉ l := by
  intro hm
  have := List.all_eq_true.mp h c hm
  rw [hc] at this
  exact Bool.false_ne_true this

lemma jsNumberL_of_all_digits (l : List Char)
    (h : l.all Char.isDigit = true) : jsNumberL l = (digitsToNat l : ℚ) := by
  simp [jsNumberL, h]

lemma jsParseIntL_of_all_digits (l : List Char)
    (h : l.all Char.isDigit = true) : jsParseIntL l = (digitsToNat l : ℚ) := by
  simp [jsParseIntL, takeWhile_eq_self_of_all _ _ h]

/-! ## Helper lemmas: symbolic evaluation of the time codec -/

lemma parseTime_eq (t : String) (hL mL sL msL : List Char)
    (ht : t.toList = hL ++ ':' :: (mL ++ ':' :: (sL ++ ',' :: msL)))
    (hh : hL.all Char.isDigit = true) (hm : mL.all Char.isDigit = true)
    (hs : sL.all Char.isDigit = true) (hms : msL.all Char.isDigit = true) :
    VideoPlayer.parseTime t =
      (digitsToNat hL : ℚ) * 3600 + (digitsToNat mL : ℚ) * 60 +
        (digitsToNat sL : ℚ) + (digitsToNat msL : ℚ) / 1000 := by
  have hcomma : (',' : Char) ∉ hL ++ ':' :: (mL ++ ':' :: sL) := by
    intro hmem
    rcases List.mem_append.mp hmem with h1 | h1
    · exact not_mem_of_all_isDigit hL hh ',' (by decide) h1
    · rcases List.mem_cons.mp h1 with h2 | h2
      · exact absurd h2 (by decide)
      · rcases List.mem_append.mp h2 with h3 | h3
        · exact not_mem_of_all_isDigit mL hm ',' (by decide) h3
        · rcases List.mem_cons.mp h3 with h4 | h4
          · exact absurd h4 (by decide)
          · exact not_mem_of_all_isDigit sL hs ',' (by decide) h4
  have hcommams : (',' : Char) ∉ msL :=
    not_mem_of_all_isDigit msL hms ',' (by decide)
  have hcolonh : (':' : Char) ∉ hL :=
    not_mem_of_all_isDigit hL hh ':' (by decide)
  have hcolonm : (':' : Char) ∉ mL :=
    not_mem_of_all_isDigit mL hm ':' (by decide)
  have hcolons : (':' : Char) ∉ sL :=
    not_mem_of_all_isDigit sL hs ':' (by decide)
  have hsplit1 :
      splitOnChar ',' t.toList =
        (hL ++ ':' :: (mL ++ ':' :: sL)) :: [msL] := by
    have hd : t.toList = (hL ++ ':' :: (mL ++ ':' :: sL)) ++ ',' :: msL := by
      rw [ht]; simp
    rw [hd, splitOnChar_sep_cons ',' _ _ hcomma,
      splitOnChar_no_sep ',' msL hcommams]
  have hsplit2 :
      splitOnChar ':' (hL ++ ':' :: (mL ++ ':' :: sL)) = [hL, mL, sL] := by
    rw [splitOnChar_sep_cons ':' _ _ hcolonh,
      splitOnChar_sep_cons ':' _ _ hcolonm,
      splitOnChar_no_sep ':' sL hcolons]
  have hsplit1d : splitOnChar ',' t.data =
      (hL ++ ':' :: (mL ++ ':' :: sL)) :: [msL] := hsplit1
  by_cases hempty : msL = []
  · subst hempty
    have h00 : jsParseIntL ['0'] = 0 := by
      have hd0 : digitsToNat ['0'] = 0 := by decide
      simp [jsParseIntL, List.takeWhile_cons, List.takeWhile_nil,
        (by decide : ('0' : Char).isDigit = true), hd0]
    have hdnil : digitsToNat [] = 0 := rfl
    norm_num [VideoPlayer.parseTime, hsplit1d, hsplit2, h00, hdnil,
      jsNumberL_of_all_digits hL hh, jsNumberL_of_all_digits mL hm,
      jsNumberL_of_all_digits sL hs]
  · norm_num [VideoPlayer.parseTime, hsplit1d, hsplit2, hempty,
      jsNumberL_of_all_digits hL hh, jsNumberL_of_all_digits mL hm,
      jsNumberL_of_all_digits sL hs, jsParseIntL_of_all_digits msL hms]

lemma parseTime_eq_noComma (t : String) (hL mL sL : List Char)
    (ht : t.toList = hL ++ ':' :: (mL ++ ':' :: sL))
    (hh : hL.all Char.isDigit = true) (hm : mL.all Char.isDigit = true)
    (hs : sL.all Char.isDigit = true) :
    VideoPlayer.parseTime t =
      (digitsToNat hL : ℚ) * 3600 + (digitsToNat mL : ℚ) * 60 +
        (digitsToNat sL : ℚ) := by
  have hcomma : (',' : Char) ∉ hL ++ ':' :: (mL ++ ':' :: sL) := by
    intro hmem
    rcases List.mem_append.mp hmem with h1 | h1
    · exact not_mem_of_all_isDigit hL hh ',' (by decide) h1
    · rcases List.mem_cons.mp h1 with h2 | h2
      · exact absurd h2 (by decide)
      · rcases List.mem_append.mp h2 with h3 | h3
        · exact not_mem_of_all_isDigit mL hm ',' (by decide) h3
        · rcases List.mem_cons.mp h3 with h4 | h4
          · exact absurd h4 (by decide)
          · exact not_mem_of_all_isDigit sL hs ',' (by decide) h4
  have hcolonh : (':' : Char) ∉ hL :=
    not_mem_of_all_isDigit hL hh ':' (by decide)
  have hcolonm : (':' : Char) ∉ mL :=
    not_mem_of_all_isDigit mL hm ':' (by decide)
  have hcolons : (':' : Char) ∉ sL :=
    not_mem_of_all_isDigit sL hs ':' (by decide)
  have hsplit1d : splitOnChar ',' t.data = [hL ++ ':' :: (mL ++ ':' :: sL)] := by
    have : splitOnChar ',' t.toList = [hL ++ ':' :: (mL ++ ':' :: sL)] := by
      rw [ht, splitOnChar_no_sep ',' _ hcomma]
    exact this
  have hsplit2 :
      splitOnChar ':' (hL ++ ':' :: (mL ++ ':' :: sL)) = [hL, mL, sL] := by
    rw [splitOnChar_sep_cons ':' _ _ hcolonh,
      splitOnChar_sep_cons ':' _ _ hcolonm,
      splitOnChar_no_sep ':' sL hcolons]
  have h00 : jsParseIntL ['0'] = 0 := by
    have hd0 : digitsToNat ['0'] = 0 := by decide
    simp [jsParseIntL, List.takeWhile_cons, List.takeWhile_nil,
      (by decide : ('0' : Char).isDigit = true), hd0]
  norm_num [VideoPlayer.parseTime, hsplit1d, hsplit2, h00,
    jsNumberL_of_all_digits hL hh, jsNumberL_of_all_digits mL hm,
    jsNumberL_of_all_digits sL hs]

/-! ## Helper lemmas: concrete timestamp values -/

lemma parseTime_0s : VideoPlayer.parseTime "00:00:00,000" = 0 := by
  rw [parseTime_eq "00:00:00,000" ['0','0'] ['0','0'] ['0','0'] ['0','0','0']
    (by decide) (by decide) (by decide) (by decide) (by decide)]
  norm_num [(by decide : digitsToNat ['0','0'] = 0),
    (by decide : digitsToNat ['0','0','0'] = 0)]

lemma parseTime_1s : VideoPlayer.parseTime "00:00:01,000" = 1 := by
  rw [parseTime_eq "00:00:01,000" ['0','0'] ['0','0'] ['0','1'] ['0','0','0']
    (by decide) (by decide) (by decide) (by decide) (by decide)]
  norm_num [(by decide : digitsToNat ['0','0'] = 0),
    (by decide : digitsToNat ['0','1'] = 1),
    (by decide : digitsToNat ['0','0','0'] = 0)]

lemma parseTime_3s : VideoPlayer.parseTime "00:00:03,000" = 3 := by
  rw [parseTime_eq "00:00:03,000" ['0','0'] ['0','0'] ['0','3'] ['0','0','0']
    (by decide) (by decide) (by decide) (by decide) (by decide)]
  norm_num [(by decide : digitsToNat ['0','0'] = 0),
    (by decide : digitsToNat ['0','3'] = 3),
    (by decide : digitsToNat ['0','0','0'] = 0)]

lemma parseTime_4s : VideoPlayer.parseTime "00:00:04,000" = 4 := by
  rw [parseTime_eq "00:00:04,000" ['0','0'] ['0','0'] ['0','4'] ['0','0','0']
    (by decide) (by decide) (by decide) (by decide) (by decide)]
  norm_num [(by decide : digitsToNat ['0','0'] = 0),
    (by decide : digitsToNat ['0','4'] = 4),
    (by decide : digitsToNat ['0','0','0'] = 0)]

lemma parseTime_6s : VideoPlayer.parseTime "00:00:06,000" = 6 := by
  rw [parseTime_eq "00:00:06,000" ['0','0'] ['0','0'] ['0','6'] ['0','0','0']
    (by decide) (by decide) (by decide) (by decide) (by decide)]
  norm_num [(by decide : digitsToNat ['0','0'] = 0),
    (by decide : digitsToNat ['0','6'] = 6),
    (by decide : digitsToNat ['0','0','0'] = 0)]

lemma parseTime_example_half : VideoPlayer.parseTime "01:02:03,500" = 3723.5 := by
  rw [parseTime_eq "01:02:03,500" ['0','1'] ['0','2'] ['0','3'] ['5','0','0']
    (by decide) (by decide) (by decide) (by decide) (by decide)]
  norm_num [(by decide : digitsToNat ['0','1'] = 1),
    (by decide : digitsToNat ['0','2'] = 2),
    (by decide : digitsToNat ['0','3'] = 3),
    (by decide : digitsToNat ['5','0','0'] = 500)]

lemma parseTime_empty_ms : VideoPlayer.parseTime "00:00:01," = 1 := by
  rw [parseTime_eq "00:00:01," ['0','0'] ['0','0'] ['0','1'] []
    (by decide) (by decide) (by decide) (by decide) (by decide)]
  norm_num [(by decide : digitsToNat ['0','0'] = 0),
    (by decide : digitsToNat ['0','1'] = 1),
    (by decide : digitsToNat [] = 0)]

/-! ## Helper lemmas: the active-caption selector -/

lemma isActiveB_eq_true_iff (t : ℚ) (sub : SubtitleItem) :
    VideoPlayer.isActiveB t sub = true ↔ containsTime sub t := by
  simp [VideoPlayer.isActiveB, containsTime, Bool.and_eq_true,
    decide_eq_true_eq, ge_iff_le, and_comm]

lemma find?_first_characterisation {α : Type} (p : α → Bool) :
    ∀ (l : List α) (c : α), l.find? p = some c →
      ∃ i, ∃ hi : i < l.length, l.get ⟨i, hi⟩ = c ∧ p c = true ∧
        ∀ j, j < i → p (l.getD j c) = false := by
  intro l
  induction l with
  | nil => intro c h; simp [List.find?] at h
  | cons a l ih =>
    intro c h
    by_cases hpa : p a = true
    · rw [List.find?_cons_of_pos _ hpa] at h
      obtain rfl : a = c := Option.some.inj h
      exact ⟨0, Nat.succ_pos _, rfl, hpa,
        fun j hj => absurd hj (Nat.not_lt_zero j)⟩
    · have hpa' : p a = false := Bool.eq_false_iff.mpr hpa
      rw [List.find?_cons_of_neg _ hpa] at h
      obtain ⟨i, hi, hget, hp, hfirst⟩ := ih c h
      refine ⟨i + 1, Nat.succ_lt_succ hi, hget, hp, ?_⟩
      intro j hj
      cases j with
      | zero => simpa using hpa'
      | succ j => simpa using hfirst j (Nat.lt_of_succ_lt_succ hj)

lemma isActiveB_A_at_2 : VideoPlayer.isActiveB 2 exampleCaptionA = true := by
  simp only [VideoPlayer.isActiveB, exampleCaptionA, parseTime_1s,
    parseTime_3s]
  norm_num

lemma isActiveB_A_at_3_5 : VideoPlayer.isActiveB 3.5 exampleCaptionA = false := by
  simp only [VideoPlayer.isActiveB, exampleCaptionA, parseTime_1s,
    parseTime_3s]
  norm_num

lemma isActiveB_B_at_3_5 : VideoPlayer.isActiveB 3.5 exampleCaptionB = false := by
  simp only [VideoPlayer.isActiveB, exampleCaptionB, parseTime_4s,
    parseTime_6s]
  norm_num

lemma isActiveB_A_at_6 : VideoPlayer.isActiveB 6 exampleCaptionA = false := by
  simp only [VideoPlayer.isActiveB, exampleCaptionA, parseTime_1s,
    parseTime_3s]
  norm_num

lemma isActiveB_B_at_6 : VideoPlayer.isActiveB 6 exampleCaptionB = true := by
  simp only [VideoPlayer.isActiveB, exampleCaptionB, parseTime_4s,
    parseTime_6s]
  norm_num

lemma findActive_at_2 :
    VideoPlayer.findActiveSubtitle exampleCaptions 2 = some exampleCaptionA := by
  simp [VideoPlayer.findActiveSubtitle, exampleCaptions,
    List.find?_cons_of_pos, isActiveB_A_at_2]

lemma findActive_at_3_5 :
    VideoPlayer.findActiveSubtitle exampleCaptions 3.5 = none := by
  simp [VideoPlayer.findActiveSubtitle, exampleCaptions, List.find?,
    isActiveB_A_at_3_5, isActiveB_B_at_3_5]

lemma findActive_at_6 :
    VideoPlayer.findActiveSubtitle exampleCaptions 6 = some exampleCaptionB := by
  simp [VideoPlayer.findActiveSubtitle, exampleCaptions, List.find?,
    isActiveB_A_at_6, isActiveB_B_at_6]

lemma srtBlocks_eq_range_map : ∀ (subs : List SubtitleItem) (k : ℕ),
    srtBlocks k subs = (List.range subs.length).map (fun i =>
      toString (k + i + 1) ++ "\n" ++ (subs.getD i default).startTime ++
        " --> " ++ (subs.getD i default).endTime ++ "\n" ++
        (subs.getD i default).translatedText ++ "\n" ++
        (subs.getD i default).originalText ++ "\n")
  | [], _ => rfl
  | sub :: rest, k => by
    rw [srtBlocks, srtBlocks_eq_range_map rest (k + 1)]
    rw [List.length_cons, List.range_succ_eq_map, List.map_cons,
      List.map_map]
    refine congrArg₂ List.cons ?_ ?_
    · simp
    · refine List.map_congr_left ?_
      intro i hi
      simp only [Function.comp_apply, List.getD_cons_succ]
      rw [show k + 1 + i + 1 = k + (i + 1) + 1 by omega]

lemma pollLoop_failed_prefix :
    ∀ (preceding : List UploadResponse) (failedPoll : UploadResponse)
      (rest : List UploadResponse) (d : ℕ),
      (∀ p ∈ preceding, (extractFile p).state = some "PROCESSING") →
      (extractFile failedPoll).state = some "FAILED" →
      pollLoop (some "PROCESSING") (preceding ++ failedPoll :: rest) d =
        .failed (d + preceding.length + 1)
  | [], failedPoll, rest, d, _, hf => by
    simp [pollLoop, hf]
  | p :: preceding, failedPoll, rest, d, hpre, hf => by
    have hp : (extractFile p).state = some "PROCESSING" :=
      hpre p (List.mem_cons_self p preceding)
    have ih := pollLoop_failed_prefix preceding failedPoll rest (d + 1)
      (fun q hq => hpre q (List.mem_cons_of_mem _ hq)) hf
    have harith : d + 1 + preceding.length + 1 =
        d + (p :: preceding).length + 1 := by
      simp only [List.length_cons]; omega
    simp [pollLoop, hp, List.append_eq, ih, harith]

lemma pollLoop_terminal_prefix :
    ∀ (preceding : List UploadResponse) (q : UploadResponse)
      (rest : List UploadResponse) (d : ℕ),
      (∀ p ∈ preceding, (extractFile p).state = some "PROCESSING") →
      (extractFile q).state ≠ some "PROCESSING" →
      (extractFile q).state ≠ some "FAILED" →
      pollLoop (some "PROCESSING") (preceding ++ q :: rest) d =
        .terminal (extractFile q).state (d + preceding.length + 1)
  | [], q, rest, d, _, hq1, hq2 => by
    simp only [List.nil_append, pollLoop, if_pos rfl, if_neg hq2]
    cases rest with
    | nil => simp [pollLoop, hq1]
    | cons r rs => simp [pollLoop, hq1]
  | p :: preceding, q, rest, d, hpre, hq1, hq2 => by
    have hp : (extractFile p).state = some "PROCESSING" :=
      hpre p (List.mem_cons_self p preceding)
    have ih := pollLoop_terminal_prefix preceding q rest (d + 1)
      (fun r hr => hpre r (List.mem_cons_of_mem _ hr)) hq1 hq2
    have harith : d + 1 + preceding.length + 1 =
        d + (p :: preceding).length + 1 := by
      simp only [List.length_cons]; omega
    simp [pollLoop, hp, List.append_eq, ih, harith]

lemma pollLoop_not_processing (st : Option String)
    (polls : List UploadResponse) (d : ℕ) (h : st ≠ some "PROCESSING") :
    pollLoop st polls d = .terminal st d := by
  cases polls with
  | nil => simp [pollLoop, h]
  | cons r rs => simp [pollLoop, h]

/-! ## Helper lemmas: application state transitions -/

lemma handleFileChange_status (s : AppState) (sel : Option JsFile)
    (url : String) :
    (handleFileChange s sel url).1.processingState.status =
        s.processingState.status ∨
      (handleFileChange s sel url).1.processingState.status = Status.idle := by
  cases sel with
  | none => exact Or.inl rfl
  | some f =>
    by_cases hsz : f.size > MAX_FILE_SIZE
    · exact Or.inl (by simp [handleFileChange, hsz])
    · exact Or.inr (by simp [handleFileChange, hsz])

lemma handleProcessStart_status (s : AppState) :
    (handleProcessStart s).1.processingState.status =
        s.processingState.status ∨
      (handleProcessStart s).1.processingState.status = Status.uploading := by
  cases hf : s.file with
  | none => exact Or.inl (by simp [handleProcessStart, hf])
  | some f => exact Or.inr (by simp [handleProcessStart, hf])

lemma onStatusUpdate_status (s : AppState) (msg : String) :
    (onStatusUpdate s msg).processingState.status = Status.uploading ∨
      (onStatusUpdate s msg).processingState.status = Status.processing := by
  by_cases h : jsIncludes "upload" msg.toLower = true
  · exact Or.inl (by simp [onStatusUpdate, h])
  · exact Or.inr (by simp [onStatusUpdate, h])

lemma handleProcessResult_status (s : AppState) (r : RunResult) :
    (handleProcessResult s r).processingState.status =
        s.processingState.status ∨
      (handleProcessResult s r).processingState.status = Status.completed ∨
      (handleProcessResult s r).processingState.status = Status.error := by
  cases hr : r.outcome with
  | success subs => exact Or.inr (Or.inl (by simp [handleProcessResult, hr]))
  | failure m => exact Or.inr (Or.inr (by simp [handleProcessResult, hr]))
  | hung => exact Or.inl (by simp [handleProcessResult, hr])

lemma resetFile_status (s : AppState) :
    (resetFile s).processingState.status = Status.idle := rfl

/-! ## Claims -/

/-- C1: for every caption list and playback time `t`, the active-caption
selector returns the first caption in list order whose inclusive
`[start, end]` range (endpoints parsed from `HH:MM:SS,mmm`) contains `t`,
and none when no caption matches; on the two-caption example list the
active caption at `t = 2` is the first, at `t = 3.5` none, and at `t = 6`
the second. -/
theorem claim_C1_active_caption :
    (∀ (subs : List SubtitleItem) (t : ℚ),
      (VideoPlayer.findActiveSubtitle subs t = none ↔
        ∀ c ∈ subs, ¬ containsTime c t) ∧
      (∀ c, VideoPlayer.findActiveSubtitle subs t = some c →
        ∃ i, ∃ hi : i < subs.length, subs.get ⟨i, hi⟩ = c ∧
          containsTime c t ∧
          ∀ j, j < i → ¬ containsTime (subs.getD j c) t)) ∧
    VideoPlayer.findActiveSubtitle exampleCaptions 2 = some exampleCaptionA ∧
    VideoPlayer.findActiveSubtitle exampleCaptions 3.5 = none ∧
    VideoPlayer.findActiveSubtitle exampleCaptions 6 = some exampleCaptionB := by
  refine ⟨?_, findActive_at_2, findActive_at_3_5, findActive_at_6⟩
  intro subs t
  constructor
  · rw [VideoPlayer.findActiveSubtitle, List.find?_eq_none]
    constructor
    · intro h c hc hcontains
      exact h c hc ((isActiveB_eq_true_iff t c).mpr hcontains)
    · intro h c hc hb
      exact h c hc ((isActiveB_eq_true_iff t c).mp hb)
  · intro c hfind
    obtain ⟨i, hi, hget, hp, hfirst⟩ :=
      find?_first_characterisation _ subs c hfind
    refine ⟨i, hi, hget, (isActiveB_eq_true_iff t c).mp hp, ?_⟩
    intro j hj hcontains
    have hfalse := hfirst j hj
    have htrue := (isActiveB_eq_true_iff t _).mpr hcontains
    rw [htrue] at hfalse
    exact absurd hfalse (by simp)

/-- C1 witness: the characterisation instantiated at the example list and
`t = 2`, with its hypothesis discharged by the concrete conjunct of the
claim. -/
theorem claim_C1_witness :
    ∃ i, ∃ hi : i < exampleCaptions.length,
      exampleCaptions.get ⟨i, hi⟩ = exampleCaptionA ∧
        containsTime exampleCaptionA 2 ∧
        ∀ j, j < i →
          ¬ containsTime (exampleCaptions.getD j exampleCaptionA) 2 :=
  (claim_C1_active_caption.1 exampleCaptions 2).2 exampleCaptionA
    claim_C1_active_caption.2.1

/-- C2: `parseTime` maps every `HH:MM:SS,mmm` string with numeric
components to `h*3600 + m*60 + s + ms/1000` seconds, treats an empty or
missing milliseconds component as zero, and in particular maps
`"01:02:03,500"` to 3723.5, `"00:00:00,000"` to 0 and `"00:00:01,"` to 1. -/
theorem claim_C2_parseTime :
    (∀ (t : String) (hL mL sL msL : List Char) (h m s ms : ℕ),
      t.toList = hL ++ ':' :: (mL ++ ':' :: (sL ++ ',' :: msL)) →
      hL.all Char.isDigit = true → mL.all Char.isDigit = true →
      sL.all Char.isDigit = true → msL.all Char.isDigit = true →
      digitsToNat hL = h → digitsToNat mL = m →
      digitsToNat sL = s → digitsToNat msL = ms →
      VideoPlayer.parseTime t =
        (h : ℚ) * 3600 + (m : ℚ) * 60 + (s : ℚ) + (ms : ℚ) / 1000) ∧
    (∀ (t : String) (hL mL sL : List Char) (h m s : ℕ),
      t.toList = hL ++ ':' :: (mL ++ ':' :: sL) →
      hL.all Char.isDigit = true → mL.all Char.isDigit = true →
      sL.all Char.isDigit = true →
      digitsToNat hL = h → digitsToNat mL = m → digitsToNat sL = s →
      VideoPlayer.parseTime t = (h : ℚ) * 3600 + (m : ℚ) * 60 + (s : ℚ)) ∧
    VideoPlayer.parseTime "01:02:03,500" = 3723.5 ∧
    VideoPlayer.parseTime "00:00:00,000" = 0 ∧
    VideoPlayer.parseTime "00:00:01," = 1 := by
  refine ⟨?_, ?_, parseTime_example_half, parseTime_0s, parseTime_empty_ms⟩
  · intro t hL mL sL msL h m s ms ht hh hm hs hms eh em es ems
    subst eh; subst em; subst es; subst ems
    exact parseTime_eq t hL mL sL msL ht hh hm hs hms
  · intro t hL mL sL h m s ht hh hm hs eh em es
    subst eh; subst em; subst es
    exact parseTime_eq_noComma t hL mL sL ht hh hm hs

/-- C2 witness: the general formula instantiated at `"01:02:03,500"`,
each hypothesis discharged by computation. -/
theorem claim_C2_witness :
    VideoPlayer.parseTime "01:02:03,500" =
      ((1 : ℕ) : ℚ) * 3600 + ((2 : ℕ) : ℚ) * 60 + ((3 : ℕ) : ℚ) +
        ((500 : ℕ) : ℚ) / 1000 :=
  claim_C2_parseTime.1 "01:02:03,500" ['0','1'] ['0','2'] ['0','3']
    ['5','0','0'] 1 2 3 500 (by decide) (by decide) (by decide) (by decide)
    (by decide) (by decide) (by decide) (by decide) (by decide)

/-- C3: the export produces, for the caption at 0-based position `i`, the
block `(i+1)\n start --> end \n translated \n original \n`, blocks
joined with a newline (hence separated by a blank line), timestamps passed
through unchanged; exporting the single example caption yields exactly the
expected text. -/
theorem claim_C3_export_format :
    (∀ subs : List SubtitleItem, subs ≠ [] →
      srtContent subs = String.intercalate "
"
        ((List.range subs.length).map (fun i =>
          toString (i + 1) ++ "
" ++ (subs.getD i default).startTime ++
            " --> " ++ (subs.getD i default).endTime ++ "
" ++
            (subs.getD i default).translatedText ++ "
" ++
            (subs.getD i default).originalText ++ "
"))) ∧
    srtContent [exportExampleCaption] =
      "1
00:00:01,000 --> 00:00:02,000
你好
Hi
" := by
  constructor
  · intro subs _
    rw [srtContent, srtBlocks_eq_range_map]
    refine congrArg _ (List.map_congr_left ?_)
    intro i _
    simp
  · decide

/-- C3 witness: the block format instantiated at the one-caption example
list, the non-emptiness hypothesis discharged explicitly. -/
theorem claim_C3_witness :
    srtContent [exportExampleCaption] = String.intercalate "
"
      ((List.range ([exportExampleCaption] : List SubtitleItem).length).map
        (fun i =>
          toString (i + 1) ++ "
" ++
            ([exportExampleCaption].getD i default).startTime ++ " --> " ++
            ([exportExampleCaption].getD i default).endTime ++ "
" ++
            ([exportExampleCaption].getD i default).translatedText ++ "
" ++
            ([exportExampleCaption].getD i default).originalText ++ "
")) :=
  claim_C3_export_format.1 [exportExampleCaption] (List.cons_ne_nil _ _)

/-- C4: the playback clock bridge pushes an external seek into the player
exactly when the player-reported time and the requested time differ by
more than 0.5 seconds; with player time 10.2 a request of 10.4 issues no
seek and a request of 12.0 does. -/
theorem claim_C4_seek_guard :
    (∀ p t : ℚ, VideoPlayer.shouldSeek p t = true ↔ |p - t| > 0.5) ∧
    VideoPlayer.shouldSeek 10.2 10.4 = false ∧
    VideoPlayer.shouldSeek 10.2 12.0 = true := by
  refine ⟨?_, ?_, ?_⟩
  · intro p t
    simp [VideoPlayer.shouldSeek]
  · norm_num [VideoPlayer.shouldSeek, abs_of_nonneg]
  · norm_num [VideoPlayer.shouldSeek, abs_of_nonneg]

/-- C9: the timestamp parser of the video-player component and the one of
the subtitle-list component agree on every input string. -/
theorem claim_C9_parseTime_agree :
    ∀ t : String, VideoPlayer.parseTime t = SubtitleList.parseTime t :=
  fun _ => rfl

lemma run_after_terminal (upload : UploadResponse)
    (polls : List UploadResponse) (genResp : GenerateResponse)
    (parseJson : String → Option (List SubtitleItem)) (d : ℕ)
    (fs : Option String)
    (huri : uriMissing (extractFile upload) = false)
    (hpoll : pollLoop (extractFile upload).state polls 0 = .terminal fs d) :
    (generateBilingualSubtitles upload polls genResp parseJson).delays = d ∧
    (generateBilingualSubtitles upload polls genResp
      parseJson).generationAttempted = true := by
  unfold generateBilingualSubtitles
  simp only [huri, Bool.false_eq_true, if_false, hpoll]
  cases hgt : genResp.text with
  | none => simp
  | some raw =>
    by_cases hre : raw.isEmpty
    · simp [hre]
    · cases hpj : parseJson raw <;> simp [hre, hpj]

/-- C5 counterexample: an upload response whose initial state is already
`FAILED` does not raise an error: the polling loop is skipped, the
generation phase is attempted, and the run completes successfully. -/
theorem claim_C5_counterexample :
    (extractFile failedUploadResponse).state = some "FAILED" ∧
    (generateBilingualSubtitles failedUploadResponse [] okGenerateResponse
      emptyParse).generationAttempted = true ∧
    (generateBilingualSubtitles failedUploadResponse [] okGenerateResponse
      emptyParse).outcome = WorkflowOutcome.success [] ∧
    (handleProcessResult initialAppState
      (generateBilingualSubtitles failedUploadResponse [] okGenerateResponse
        emptyParse)).processingState.status = Status.completed := by
  decide

/-- C5 (amended): whenever the provider reports `FAILED` on a status poll
performed while the last observed state was `PROCESSING`, the workflow
fails with the processing error, the generation phase is never attempted,
and the application ends in the `error` state.  (A `FAILED` state in the
upload response itself is not checked: the polling loop is skipped and
generation proceeds, per the counterexample.) -/
theorem claim_C5_failed_poll :
    ∀ (st : AppState) (upload : UploadResponse)
      (preceding : List UploadResponse) (failedPoll : UploadResponse)
      (rest : List UploadResponse) (genResp : GenerateResponse)
      (parseJson : String → Option (List SubtitleItem)),
      uriMissing (extractFile upload) = false →
      (extractFile upload).state = some "PROCESSING" →
      (∀ p ∈ preceding, (extractFile p).state = some "PROCESSING") →
      (extractFile failedPoll).state = some "FAILED" →
      (generateBilingualSubtitles upload (preceding ++ failedPoll :: rest)
          genResp parseJson).outcome =
        WorkflowOutcome.failure
          "Video processing failed on Gemini servers." ∧
      (generateBilingualSubtitles upload (preceding ++ failedPoll :: rest)
          genResp parseJson).generationAttempted = false ∧
      (handleProcessResult st (generateBilingualSubtitles upload
          (preceding ++ failedPoll :: rest) genResp
          parseJson)).processingState.status = Status.error := by
  intro st upload preceding failedPoll rest genResp parseJson huri hst hpre hf
  have hpoll := pollLoop_failed_prefix preceding failedPoll rest 0 hpre hf
  refine ⟨?_, ?_, ?_⟩ <;>
    simp [generateBilingualSubtitles, huri, hst, hpoll, handleProcessResult]

/-- C5 witness: the amended statement instantiated with a processing
upload followed by one `FAILED` poll. -/
theorem claim_C5_witness :
    uriMissing (extractFile processingUploadResponse) = false ∧
    (extractFile processingUploadResponse).state = some "PROCESSING" ∧
    (extractFile failedPollResponse).state = some "FAILED" ∧
    (generateBilingualSubtitles processingUploadResponse
        ([] ++ failedPollResponse :: []) okGenerateResponse
        emptyParse).outcome =
      WorkflowOutcome.failure "Video processing failed on Gemini servers." ∧
    (handleProcessResult initialAppState (generateBilingualSubtitles
        processingUploadResponse ([] ++ failedPollResponse :: [])
        okGenerateResponse emptyParse)).processingState.status =
      Status.error := by
  have h := claim_C5_failed_poll initialAppState processingUploadResponse []
    failedPollResponse [] okGenerateResponse emptyParse (by decide)
    (by decide) (by intro p hp; exact absurd hp (List.not_mem_nil p))
    (by decide)
  exact ⟨by decide, by decide, by decide, h.1, h.2.2⟩

/-- C6: a selected file larger than 4 GiB is rejected synchronously with
an alert, no remote call occurs, and the state is left unchanged (in
particular an `idle` status stays `idle`). -/
theorem claim_C6_size_guard :
    ∀ (st : AppState) (f : JsFile) (newUrl : String),
      f.size > MAX_FILE_SIZE →
      handleFileChange st (some f) newUrl =
        (st, [Effect.alert "File size exceeds the 4GB limit."]) ∧
      Effect.remoteGenerate ∉ (handleFileChange st (some f) newUrl).2 ∧
      (st.processingState.status = Status.idle →
        (handleFileChange st (some f) newUrl).1.processingState.status =
          Status.idle) := by
  intro st f newUrl hsz
  have heq : handleFileChange st (some f) newUrl =
      (st, [Effect.alert "File size exceeds the 4GB limit."]) := by
    simp [handleFileChange, hsz]
  refine ⟨heq, ?_, ?_⟩
  · rw [heq]
    simp
  · intro hidle
    rw [heq]
    exact hidle

/-- C6 witness: the guard instantiated at the initial state and a file
one byte over the boundary. -/
theorem claim_C6_witness :
    oversizedFile.size > MAX_FILE_SIZE ∧
    handleFileChange initialAppState (some oversizedFile) "blob:demo" =
      (initialAppState, [Effect.alert "File size exceeds the 4GB limit."]) ∧
    (handleFileChange initialAppState (some oversizedFile)
      "blob:demo").1.processingState.status = Status.idle := by
  have hsz : oversizedFile.size > MAX_FILE_SIZE := by decide
  obtain ⟨h1, _, h3⟩ :=
    claim_C6_size_guard initialAppState oversizedFile "blob:demo" hsz
  exact ⟨hsz, h1, h3 rfl⟩

/-- C7: each observation of the `PROCESSING` state costs exactly one
fixed-interval wait before the next status query, so a run that observes
`PROCESSING` in the upload response and on each of `n` polls before a
non-processing, non-failed state performs `n + 1` waits and then attempts
generation; a run whose upload state is not `PROCESSING` performs no
wait; the fixed interval is 2000 ms. -/
theorem claim_C7_poll_delays :
    (∀ (upload : UploadResponse) (preceding : List UploadResponse)
      (q : UploadResponse) (rest : List UploadResponse)
      (genResp : GenerateResponse)
      (parseJson : String → Option (List SubtitleItem)),
      uriMissing (extractFile upload) = false →
      (extractFile upload).state = some "PROCESSING" →
      (∀ p ∈ preceding, (extractFile p).state = some "PROCESSING") →
      (extractFile q).state ≠ some "PROCESSING" →
      (extractFile q).state ≠ some "FAILED" →
      (generateBilingualSubtitles upload (preceding ++ q :: rest) genResp
          parseJson).delays = preceding.length + 1 ∧
      (generateBilingualSubtitles upload (preceding ++ q :: rest) genResp
          parseJson).generationAttempted = true) ∧
    (∀ (upload : UploadResponse) (polls : List UploadResponse)
      (genResp : GenerateResponse)
      (parseJson : String → Option (List SubtitleItem)),
      uriMissing (extractFile upload) = false →
      (extractFile upload).state ≠ some "PROCESSING" →
      (generateBilingualSubtitles upload polls genResp parseJson).delays =
        0) ∧
    pollIntervalMs = 2000 := by
  refine ⟨?_, ?_, rfl⟩
  · intro upload preceding q rest genResp parseJson huri hst hpre hq1 hq2
    have hpoll := pollLoop_terminal_prefix preceding q rest 0 hpre hq1 hq2
    have h := run_after_terminal upload (preceding ++ q :: rest) genResp
      parseJson (0 + preceding.length + 1) (extractFile q).state huri
      (by rw [hst]; exact hpoll)
    refine ⟨?_, h.2⟩
    rw [h.1]
    omega
  · intro upload polls genResp parseJson huri hst
    have hpoll := pollLoop_not_processing (extractFile upload).state polls 0
      hst
    exact (run_after_terminal upload polls genResp parseJson 0
      (extractFile upload).state huri hpoll).1

/-- C7 witness: a provider reporting `PROCESSING` in the upload response,
`PROCESSING` on the first poll and `ACTIVE` on the second performs
exactly two waits and then attempts generation. -/
theorem claim_C7_witness :
    (generateBilingualSubtitles processingUploadResponse
        ([processingPollResponse] ++ activePollResponse :: [])
        okGenerateResponse emptyParse).delays = 2 ∧
    (generateBilingualSubtitles processingUploadResponse
        ([processingPollResponse] ++ activePollResponse :: [])
        okGenerateResponse emptyParse).generationAttempted = true := by
  have h := claim_C7_poll_delays.1 processingUploadResponse
    [processingPollResponse] activePollResponse [] okGenerateResponse
    emptyParse (by decide) (by decide)
    (by
      intro p hp
      rcases List.mem_singleton.mp hp with rfl
      decide)
    (by decide) (by decide)
  exact ⟨h.1, h.2⟩

/-- C8: when no resource identifier can be extracted from the upload
response (wrapped or not), the workflow fails with the descriptive URI
error, performs no poll and never attempts generation. -/
theorem claim_C8_missing_uri :
    ∀ (upload : UploadResponse) (polls : List UploadResponse)
      (genResp : GenerateResponse)
      (parseJson : String → Option (List SubtitleItem)),
      uriMissing (extractFile upload) = true →
      (generateBilingualSubtitles upload polls genResp parseJson).outcome =
        WorkflowOutcome.failure
          "Failed to upload file: URI is missing from response." ∧
      (generateBilingualSubtitles upload polls genResp parseJson).delays =
        0 ∧
      (generateBilingualSubtitles upload polls genResp
        parseJson).generationAttempted = false := by
  intro upload polls genResp parseJson huri
  refine ⟨?_, ?_, ?_⟩ <;> simp [generateBilingualSubtitles, huri]

/-- C8 witness: the guard instantiated at a wrapped and at an unwrapped
response without `uri`. -/
theorem claim_C8_witness :
    uriMissing (extractFile wrappedNoUriResponse) = true ∧
    uriMissing (extractFile bareNoUriResponse) = true ∧
    (generateBilingualSubtitles wrappedNoUriResponse [] okGenerateResponse
        emptyParse).outcome =
      WorkflowOutcome.failure
        "Failed to upload file: URI is missing from response." ∧
    (generateBilingualSubtitles bareNoUriResponse [] okGenerateResponse
        emptyParse).generationAttempted = false :=
  ⟨by decide, by decide,
    (claim_C8_missing_uri wrappedNoUriResponse [] okGenerateResponse
      emptyParse (by decide)).1,
    (claim_C8_missing_uri bareNoUriResponse [] okGenerateResponse
      emptyParse (by decide)).2.2⟩

/-- C10: although the processing-state type has a `reading` variant, no
reachable application state carries it: every event handler produces
`idle`, `uploading`, `processing`, `completed` or `error`. -/
theorem claim_C10_reading_unreachable :
    ∀ s : AppState, Reachable s →
      s.processingState.status ≠ Status.reading := by
  intro s h
  induction h with
  | init => simp [initialAppState]
  | fileChange sel url _ ih =>
    rcases handleFileChange_status _ sel url with h1 | h1 <;> rw [h1]
    · exact ih
    · simp
  | processStart _ ih =>
    rcases handleProcessStart_status _ with h1 | h1 <;> rw [h1]
    · exact ih
    · simp
  | statusUpdate msg _ _ =>
    rcases onStatusUpdate_status _ msg with h1 | h1 <;> rw [h1] <;> simp
  | processResult r _ ih =>
    rcases handleProcessResult_status _ r with h1 | h1 | h1 <;> rw [h1]
    · exact ih
    · simp
    · simp
  | reset _ _ =>
    rw [resetFile_status]
    simp

/-- C10 witness: the invariant at the initial state. -/
theorem claim_C10_witness :
    initialAppState.processingState.status ≠ Status.reading :=
  claim_C10_reading_unreachable initialAppState Reachable.init
